import Mathlib

/-!
Verification of the fungible-token ledger in `src/lib.rs` (ink! contract
module `token`). The contract state holds a `u32` total supply and two
`Mapping`s: `balances : AccountId → u32` and
`allowances : (AccountId, AccountId) → u32`, where an absent key reads as 0
(`unwrap_or_default`). Operations: constructor `new_init`, queries
`total_supply` / `balance_of` / `allowance`, and commands `transfer`,
`approve`, `transfer_from`.

Embedding choices:
* `AccountId` (an opaque 32-byte comparable key) is embedded as `Nat`.
* `Mapping K u32` is embedded as an association list with overwrite-insert
  and first-occurrence lookup, matching key-value store semantics; `u32`
  values are `Nat`, and the one arithmetic operation where overflow matters
  (the addition `to_balance + value` in `transfer_from_to`) carries an
  explicit `% 2^32`. The subtractions sit behind `<` guards, so inside
  their branches `Nat` subtraction agrees with `u32` subtraction.
* Event emission is kept in the state as an append-only log, so that the
  notification claims are statable.
* The caller identity, supplied by the host (`Self::env().caller()`), is an
  explicit argument of each command.
-/

namespace Erc20

/-- Account identifier: opaque comparable key, embedded as `Nat`. -/
abbrev AccountId := Nat

/-- The error enum of the contract (`enum Error` in `src/lib.rs`). -/
inductive Error where
  | InsufficientBalance
  | InsufficientAllowance
deriving DecidableEq, Repr

/-- Embedding of `ink_storage::Mapping K u32`: an association list. -/
abbrev Mapping (K : Type) := List (K × Nat)

/-- Lookup of the first occurrence of a key (`Mapping::get`). -/
def mapGet {K : Type} [DecidableEq K] : Mapping K → K → Option Nat
  | [], _ => none
  | (k', v') :: rest, k => if k' = k then some v' else mapGet rest k

/-- Overwrite-insert (`Mapping::insert`): replaces the first occurrence of
the key, appends when absent. -/
def mapInsert {K : Type} [DecidableEq K] : Mapping K → K → Nat → Mapping K
  | [], k, v => [(k, v)]
  | (k', v') :: rest, k, v =>
      if k' = k then (k, v) :: rest else (k', v') :: mapInsert rest k v

/-- Sum of all values stored in a mapping. -/
def sumVals {K : Type} (m : Mapping K) : Nat := (m.map Prod.snd).sum

/-- The notifications the contract emits (`Transfer` and `Approval` events). -/
inductive Event where
  | Transfer (source : Option AccountId) (dest : Option AccountId) (value : Nat)
  | Approval (owner spender : AccountId) (value : Nat)
deriving DecidableEq, Repr

/-- The contract storage (`struct Token`), plus the emitted-event log. -/
structure Token where
  total_supply : Nat
  balances : Mapping AccountId
  allowances : Mapping (AccountId × AccountId)
  events : List Event
deriving DecidableEq, Repr

/-- Constructor body `new_init`: sets `total_supply`, credits the whole
initial supply to the caller, emits `Transfer { from: None, to: Some(caller),
value: initial_supply }`. The contract starts from the `SpreadAllocate`
default (empty maps). -/
def new_init (caller : AccountId) (initial_supply : Nat) : Token :=
  { total_supply := initial_supply
    balances := mapInsert [] caller initial_supply
    allowances := []
    events := [Event.Transfer none (some caller) initial_supply] }

/-- `balance_of_impl`: `self.balances.get(owner).unwrap_or_default()`. -/
def Token.balance_of_impl (self : Token) (owner : AccountId) : Nat :=
  (mapGet self.balances owner).getD 0

/-- Public query `balance_of`. -/
def Token.balance_of (self : Token) (owner : AccountId) : Nat :=
  (mapGet self.balances owner).getD 0

/-- `allowance_impl`: `self.allowances.get((owner, spender)).unwrap_or_default()`. -/
def Token.allowance_impl (self : Token) (owner spender : AccountId) : Nat :=
  (mapGet self.allowances (owner, spender)).getD 0

/-- Public query `allowance`. -/
def Token.allowance (self : Token) (owner spender : AccountId) : Nat :=
  self.allowance_impl owner spender

/-- Private primitive `transfer_from_to`. Reads the source balance, fails
with `InsufficientBalance` when it is below `value`; otherwise debits the
source, reads the destination balance from the updated map, credits it
(u32 addition, hence the `% 2^32`), and emits a `Transfer` event. -/
def Token.transfer_from_to (self : Token) (src dst : AccountId) (value : Nat) :
    Except Error Unit × Token :=
  let from_balance := self.balance_of_impl src
  if from_balance < value then
    (Except.error Error.InsufficientBalance, self)
  else
    let s1 : Token := { self with balances := mapInsert self.balances src (from_balance - value) }
    let to_balance := s1.balance_of_impl dst
    let s2 : Token :=
      { s1 with
        balances := mapInsert s1.balances dst ((to_balance + value) % 2 ^ 32)
        events := s1.events ++ [Event.Transfer (some src) (some dst) value] }
    (Except.ok (), s2)

/-- Public command `transfer`: `transfer_from_to(caller, to, value)`. -/
def Token.transfer (self : Token) (caller dst : AccountId) (value : Nat) :
    Except Error Unit × Token :=
  self.transfer_from_to caller dst value

/-- Public command `approve`: unconditionally overwrites
`allowances[(caller, spender)]` and emits an `Approval` event. -/
def Token.approve (self : Token) (caller spender : AccountId) (value : Nat) :
    Except Error Unit × Token :=
  (Except.ok (),
    { self with
      allowances := mapInsert self.allowances (caller, spender) value
      events := self.events ++ [Event.Approval caller spender value] })

/-- Public command `transfer_from`: reads the allowance of `(src, caller)`,
fails with `InsufficientAllowance` when it is below `value`; otherwise runs
`transfer_from_to` (propagating its error via `?`), and on success
overwrites the allowance with `allowance - value`. -/
def Token.transfer_from (self : Token) (caller src dst : AccountId) (value : Nat) :
    Except Error Unit × Token :=
  let allowance := self.allowance_impl src caller
  if allowance < value then
    (Except.error Error.InsufficientAllowance, self)
  else
    match self.transfer_from_to src dst value with
    | (Except.error e, s1) => (Except.error e, s1)
    | (Except.ok _, s1) =>
        (Except.ok (),
          { s1 with allowances := mapInsert s1.allowances (src, caller) (allowance - value) })

instance : DecidableEq (Except Error Unit) := fun a b =>
  match a, b with
  | .ok (), .ok () => isTrue rfl
  | .ok (), .error _ => isFalse (by simp)
  | .error _, .ok () => isFalse (by simp)
  | .error e1, .error e2 =>
      if h : e1 = e2 then isTrue (by rw [h]) else isFalse (by simp [h])

/-- One ledger command, with its host-supplied caller. -/
inductive Op where
  | transferOp (caller dst : AccountId) (value : Nat)
  | approveOp (caller spender : AccountId) (value : Nat)
  | transferFromOp (caller src dst : AccountId) (value : Nat)
deriving DecidableEq, Repr

/-- Apply a command to the state, keeping the post-state whether or not the
command succeeded (failed commands return the state unchanged). -/
def applyOp (t : Token) : Op → Token
  | .transferOp c d v => (t.transfer c d v).2
  | .approveOp c s v => (t.approve c s v).2
  | .transferFromOp c s d v => (t.transfer_from c s d v).2

/-- Run a sequence of commands. -/
def run (t : Token) (ops : List Op) : Token := ops.foldl applyOp t

/-- Apply a command, returning both its result and the post-state. -/
def stepOp (t : Token) : Op → Except Error Unit × Token
  | .transferOp c d v => t.transfer c d v
  | .approveOp c s v => t.approve c s v
  | .transferFromOp c s d v => t.transfer_from c s d v

/-- The conservation invariant together with the u32 bound on the supply. -/
def Inv (t : Token) : Prop :=
  sumVals t.balances = t.total_supply ∧ t.total_supply < 2 ^ 32

/-! ## Association-list map lemmas -/

theorem mapGet_insert_self {K : Type} [DecidableEq K] (m : Mapping K) (k : K) (v : Nat) :
    mapGet (mapInsert m k v) k = some v := by
  induction m with
  | nil => simp [mapInsert, mapGet]
  | cons p rest ih =>
      obtain ⟨k', v'⟩ := p
      by_cases h : k' = k
      · simp [mapInsert, mapGet, h]
      · simp [mapInsert, mapGet, h, ih]

theorem mapGet_insert_ne {K : Type} [DecidableEq K] (m : Mapping K) (k j : K) (v : Nat)
    (h : j ≠ k) : mapGet (mapInsert m k v) j = mapGet m j := by
  have hkj : ¬ k = j := fun hkj => h hkj.symm
  induction m with
  | nil => simp [mapInsert, mapGet, hkj]
  | cons p rest ih =>
      obtain ⟨k', v'⟩ := p
      by_cases hk : k' = k
      · subst hk
        simp only [mapInsert, if_pos rfl, mapGet, if_neg hkj]
      · simp only [mapInsert, if_neg hk, mapGet]
        by_cases hj : k' = j
        · simp [hj]
        · simp [hj, ih]

theorem sumVals_cons {K : Type} (p : K × Nat) (m : Mapping K) :
    sumVals (p :: m) = p.2 + sumVals m := by
  simp [sumVals]

theorem sumVals_insert {K : Type} [DecidableEq K] (m : Mapping K) (k : K) (v : Nat) :
    sumVals (mapInsert m k v) + (mapGet m k).getD 0 = sumVals m + v := by
  induction m with
  | nil => simp [mapInsert, mapGet, sumVals]
  | cons p rest ih =>
      obtain ⟨k', v'⟩ := p
      by_cases h : k' = k
      · simp only [mapInsert, mapGet, if_pos h, sumVals_cons, Option.getD_some]
        omega
      · simp only [mapInsert, mapGet, if_neg h, sumVals_cons, Option.getD_some]
        omega

theorem getD_le_sumVals {K : Type} [DecidableEq K] (m : Mapping K) (k : K) :
    (mapGet m k).getD 0 ≤ sumVals m := by
  induction m with
  | nil => simp [mapGet, sumVals]
  | cons p rest ih =>
      obtain ⟨k', v'⟩ := p
      by_cases h : k' = k
      · simp only [mapGet, if_pos h, Option.getD_some, sumVals_cons]
        omega
      · simp only [mapGet, if_neg h, sumVals_cons]
        omega

/-! ## Closed forms of the commands -/

theorem transfer_from_to_lt (t : Token) (src dst : AccountId) (v : Nat)
    (h : t.balance_of_impl src < v) :
    t.transfer_from_to src dst v = (Except.error Error.InsufficientBalance, t) := by
  simp only [Token.transfer_from_to]
  rw [if_pos h]

theorem transfer_from_to_ge (t : Token) (src dst : AccountId) (v : Nat)
    (h : ¬ t.balance_of_impl src < v) :
    t.transfer_from_to src dst v =
      (Except.ok (),
        { t with
          balances :=
            mapInsert (mapInsert t.balances src (t.balance_of_impl src - v)) dst
              (((mapGet (mapInsert t.balances src (t.balance_of_impl src - v)) dst).getD 0 + v)
                % 2 ^ 32)
          events := t.events ++ [Event.Transfer (some src) (some dst) v] }) := by
  simp only [Token.transfer_from_to]
  rw [if_neg h]
  simp only [Token.balance_of_impl]

/-! ## Invariant preservation -/

theorem total_supply_transfer_from_to (t : Token) (src dst : AccountId) (v : Nat) :
    (t.transfer_from_to src dst v).2.total_supply = t.total_supply := by
  by_cases h : t.balance_of_impl src < v
  · rw [transfer_from_to_lt t src dst v h]
  · rw [transfer_from_to_ge t src dst v h]

theorem Inv_transfer_from_to (t : Token) (src dst : AccountId) (v : Nat) (hInv : Inv t) :
    Inv (t.transfer_from_to src dst v).2 := by
  by_cases h : t.balance_of_impl src < v
  · rw [transfer_from_to_lt t src dst v h]
    exact hInv
  · rw [transfer_from_to_ge t src dst v h]
    obtain ⟨hsum, hlt⟩ := hInv
    have hpow : (2 : Nat) ^ 32 = 4294967296 := by norm_num
    have hble : t.balance_of_impl src ≤ sumVals t.balances :=
      getD_le_sumVals t.balances src
    have h1 := sumVals_insert t.balances src (t.balance_of_impl src - v)
    have h2 := getD_le_sumVals (mapInsert t.balances src (t.balance_of_impl src - v)) dst
    have h3 := sumVals_insert (mapInsert t.balances src (t.balance_of_impl src - v)) dst
      (((mapGet (mapInsert t.balances src (t.balance_of_impl src - v)) dst).getD 0 + v) % 2 ^ 32)
    have hmod :
        (((mapGet (mapInsert t.balances src (t.balance_of_impl src - v)) dst).getD 0 + v)
          % 2 ^ 32)
        = (mapGet (mapInsert t.balances src (t.balance_of_impl src - v)) dst).getD 0 + v := by
      apply Nat.mod_eq_of_lt
      have : (mapGet t.balances src).getD 0 = t.balance_of_impl src := rfl
      omega
    constructor
    · show sumVals (mapInsert (mapInsert t.balances src (t.balance_of_impl src - v)) dst
        (((mapGet (mapInsert t.balances src (t.balance_of_impl src - v)) dst).getD 0 + v)
          % 2 ^ 32)) = t.total_supply
      have : (mapGet t.balances src).getD 0 = t.balance_of_impl src := rfl
      omega
    · exact hlt

theorem transfer_from_allow_lt (t : Token) (caller src dst : AccountId) (v : Nat)
    (h : t.allowance_impl src caller < v) :
    t.transfer_from caller src dst v = (Except.error Error.InsufficientAllowance, t) := by
  simp only [Token.transfer_from]
  rw [if_pos h]

theorem transfer_from_bal_lt (t : Token) (caller src dst : AccountId) (v : Nat)
    (ha : ¬ t.allowance_impl src caller < v) (hb : t.balance_of_impl src < v) :
    t.transfer_from caller src dst v = (Except.error Error.InsufficientBalance, t) := by
  simp only [Token.transfer_from]
  rw [if_neg ha, transfer_from_to_lt t src dst v hb]

theorem transfer_from_ok (t : Token) (caller src dst : AccountId) (v : Nat)
    (ha : ¬ t.allowance_impl src caller < v) (hb : ¬ t.balance_of_impl src < v) :
    t.transfer_from caller src dst v =
      (Except.ok (),
        { (t.transfer_from_to src dst v).2 with
          allowances := mapInsert (t.transfer_from_to src dst v).2.allowances (src, caller)
            (t.allowance_impl src caller - v) }) := by
  simp only [Token.transfer_from]
  rw [if_neg ha, transfer_from_to_ge t src dst v hb]

theorem Inv_set_allowances (t : Token) (a : Mapping (AccountId × AccountId)) :
    Inv { t with allowances := a } ↔ Inv t := Iff.rfl

theorem Inv_applyOp (t : Token) (op : Op) (hInv : Inv t) : Inv (applyOp t op) := by
  cases op with
  | transferOp c d v => exact Inv_transfer_from_to t c d v hInv
  | approveOp c s v => exact hInv
  | transferFromOp c s d v =>
      by_cases ha : t.allowance_impl s c < v
      · simp only [applyOp]
        rw [transfer_from_allow_lt t c s d v ha]
        exact hInv
      · by_cases hb : t.balance_of_impl s < v
        · simp only [applyOp]
          rw [transfer_from_bal_lt t c s d v ha hb]
          exact hInv
        · simp only [applyOp]
          rw [transfer_from_ok t c s d v ha hb]
          exact (Inv_set_allowances _ _).mpr (Inv_transfer_from_to t s d v hInv)

theorem total_supply_applyOp (t : Token) (op : Op) :
    (applyOp t op).total_supply = t.total_supply := by
  cases op with
  | transferOp c d v => exact total_supply_transfer_from_to t c d v
  | approveOp c s v => rfl
  | transferFromOp c s d v =>
      by_cases ha : t.allowance_impl s c < v
      · simp only [applyOp]
        rw [transfer_from_allow_lt t c s d v ha]
      · by_cases hb : t.balance_of_impl s < v
        · simp only [applyOp]
          rw [transfer_from_bal_lt t c s d v ha hb]
        · simp only [applyOp]
          rw [transfer_from_ok t c s d v ha hb]
          exact total_supply_transfer_from_to t s d v

theorem run_cons (t : Token) (op : Op) (ops : List Op) :
    run t (op :: ops) = run (applyOp t op) ops := rfl

theorem Inv_run (t : Token) (ops : List Op) (hInv : Inv t) : Inv (run t ops) := by
  induction ops generalizing t with
  | nil => exact hInv
  | cons op rest ih => exact ih (applyOp t op) (Inv_applyOp t op hInv)

theorem total_supply_run (t : Token) (ops : List Op) :
    (run t ops).total_supply = t.total_supply := by
  induction ops generalizing t with
  | nil => rfl
  | cons op rest ih =>
      rw [run_cons]
      rw [ih (applyOp t op)]
      exact total_supply_applyOp t op

theorem Inv_new_init (caller : AccountId) (s : Nat) (hs : s < 2 ^ 32) :
    Inv (new_init caller s) := by
  constructor
  · simp [new_init, mapInsert, sumVals]
  · exact hs

/-! ## Claims -/

/-- C1: Conservation: for every state reachable from `Construct(initial_supply, creator)`
by any sequence of `transfer`, `approve`, and `transfer_from` operations, the sum of all
values stored in the balances map equals `total_supply`. -/
theorem C1_conservation (creator : AccountId) (initial_supply : Nat)
    (hs : initial_supply < 2 ^ 32) (ops : List Op) :
    sumVals (run (new_init creator initial_supply) ops).balances =
      (run (new_init creator initial_supply) ops).total_supply :=
  (Inv_run (new_init creator initial_supply) ops (Inv_new_init creator initial_supply hs)).1

/-- Witness for C1 at a concrete run. -/
theorem C1_conservation_witness :
    sumVals (run (new_init 1 1000)
        [Op.approveOp 1 2 50, Op.transferFromOp 2 1 3 20, Op.transferOp 3 1 5]).balances =
      (run (new_init 1 1000)
        [Op.approveOp 1 2 50, Op.transferFromOp 2 1 3 20, Op.transferOp 3 1 5]).total_supply :=
  C1_conservation 1 1000 (by norm_num)
    [Op.approveOp 1 2 50, Op.transferFromOp 2 1 3 20, Op.transferOp 3 1 5]

/-- C10: total_supply is constant after construction: no command (`transfer`, `approve`,
`transfer_from`) ever modifies the `total_supply` field, so `total_supply()` returns the
construction-time initial supply after every sequence of operations. -/
theorem C10_total_supply_constant (t : Token) (op : Op) (creator : AccountId)
    (initial_supply : Nat) (ops : List Op) :
    (applyOp t op).total_supply = t.total_supply ∧
      (run (new_init creator initial_supply) ops).total_supply = initial_supply :=
  ⟨total_supply_applyOp t op, by rw [total_supply_run]; rfl⟩

/-- C2: Atomicity on error: every command (`transfer`, `approve`, `transfer_from`), in
every state, either fully succeeds or returns an error having mutated no state (the
post-state equals the pre-state, event log included); in particular, whenever
`transfer_from` passes the allowance check but the balance is insufficient, it fails with
`InsufficientBalance` and the whole state — the allowance `allowance_of(from, caller)`
and all balances — retains its prior value. -/
theorem C2_atomicity (t : Token) (op : Op) (caller src dst : AccountId) (v : Nat) :
    ((stepOp t op).1 = Except.ok () ∨ (stepOp t op).2 = t) ∧
      (¬ t.allowance_impl src caller < v → t.balance_of_impl src < v →
        t.transfer_from caller src dst v = (Except.error Error.InsufficientBalance, t)) := by
  constructor
  · cases op with
    | transferOp c d w =>
        by_cases h : t.balance_of_impl c < w
        · right
          show (t.transfer c d w).2 = t
          simp only [Token.transfer]
          rw [transfer_from_to_lt t c d w h]
        · left
          show (t.transfer c d w).1 = Except.ok ()
          simp only [Token.transfer]
          rw [transfer_from_to_ge t c d w h]
    | approveOp c s w => exact Or.inl rfl
    | transferFromOp c s d w =>
        by_cases h1 : t.allowance_impl s c < w
        · right
          show (t.transfer_from c s d w).2 = t
          rw [transfer_from_allow_lt t c s d w h1]
        · by_cases h2 : t.balance_of_impl s < w
          · right
            show (t.transfer_from c s d w).2 = t
            rw [transfer_from_bal_lt t c s d w h1 h2]
          · left
            show (t.transfer_from c s d w).1 = Except.ok ()
            rw [transfer_from_ok t c s d w h1 h2]
  · intro ha hb
    exact transfer_from_bal_lt t caller src dst v ha hb

/-- Witness for C2: after crediting account 1 with 10 and approving 50 to spender 2, both
the antecedents of the insufficient-balance conjunct hold for a `transfer_from` of 20, and
the general conjunct is exercised on a failing `transfer` command. -/
theorem C2_atomicity_witness :
    (((stepOp ((new_init 1 10).approve 1 2 50).2 (Op.transferOp 1 3 20)).1 = Except.ok () ∨
      (stepOp ((new_init 1 10).approve 1 2 50).2 (Op.transferOp 1 3 20)).2 =
        ((new_init 1 10).approve 1 2 50).2) ∧
      (¬ ((new_init 1 10).approve 1 2 50).2.allowance_impl 1 2 < 20 →
        ((new_init 1 10).approve 1 2 50).2.balance_of_impl 1 < 20 →
        ((new_init 1 10).approve 1 2 50).2.transfer_from 2 1 3 20 =
          (Except.error Error.InsufficientBalance, ((new_init 1 10).approve 1 2 50).2))) ∧
    (¬ ((new_init 1 10).approve 1 2 50).2.allowance_impl 1 2 < 20 ∧
      ((new_init 1 10).approve 1 2 50).2.balance_of_impl 1 < 20) :=
  ⟨C2_atomicity ((new_init 1 10).approve 1 2 50).2 (Op.transferOp 1 3 20) 2 1 3 20,
    by decide⟩

/-- C4: TransferFrom error selection: `transfer_from` returns an error iff
`allowance_of(from, caller) < value` or `balance_of(from) < value`; when the allowance is
insufficient it fails with `InsufficientAllowance` regardless of balances, with no state
change (the allowance check comes first, before any balance check or mutation). -/
theorem C4_transfer_from_error_iff (t : Token) (caller src dst : AccountId) (v : Nat) :
    ((t.transfer_from caller src dst v).1 ≠ Except.ok () ↔
      t.allowance_impl src caller < v ∨ t.balance_of_impl src < v) ∧
    (t.allowance_impl src caller < v →
      t.transfer_from caller src dst v = (Except.error Error.InsufficientAllowance, t)) := by
  constructor
  · constructor
    · intro hne
      by_contra hcon
      push_neg at hcon
      rw [transfer_from_ok t caller src dst v (Nat.not_lt.mpr hcon.1) (Nat.not_lt.mpr hcon.2)]
        at hne
      exact hne rfl
    · intro h
      rcases h with ha | hb
      · rw [transfer_from_allow_lt t caller src dst v ha]
        simp
      · by_cases ha : t.allowance_impl src caller < v
        · rw [transfer_from_allow_lt t caller src dst v ha]
          simp
        · rw [transfer_from_bal_lt t caller src dst v ha hb]
          simp
  · intro ha
    exact transfer_from_allow_lt t caller src dst v ha

/-- Witness for C4 at a concrete state: with no prior approval the allowance is 0, so a
`transfer_from` of 5 fails with `InsufficientAllowance`. -/
theorem C4_transfer_from_error_iff_witness :
    (((new_init 1 10).transfer_from 2 1 3 5).1 ≠ Except.ok () ↔
      (new_init 1 10).allowance_impl 1 2 < 5 ∨ (new_init 1 10).balance_of_impl 1 < 5) ∧
    ((new_init 1 10).allowance_impl 1 2 < 5 →
      (new_init 1 10).transfer_from 2 1 3 5 =
        (Except.error Error.InsufficientAllowance, new_init 1 10)) :=
  C4_transfer_from_error_iff (new_init 1 10) 2 1 3 5

/-- C6: Transfer failure is a no-op: when `balance_of(A) < V`, `transfer` called by `A`
returns `InsufficientBalance` and the whole state is unchanged (so `balance_of(A)`,
`balance_of(X)` and every other account's balance are unchanged). -/
theorem C6_transfer_failure_noop (t : Token) (A X : AccountId) (v : Nat)
    (h : t.balance_of A < v) :
    t.transfer A X v = (Except.error Error.InsufficientBalance, t) ∧
    (t.transfer A X v).2.balance_of A = t.balance_of A ∧
    (t.transfer A X v).2.balance_of X = t.balance_of X := by
  have h' : t.balance_of_impl A < v := h
  refine ⟨?_, ?_, ?_⟩ <;>
    · simp only [Token.transfer]
      rw [transfer_from_to_lt t A X v h']

/-- Witness for C6: account 2 has balance 0 in the freshly constructed state, so a
transfer of 5 from it fails and changes nothing. -/
theorem C6_transfer_failure_noop_witness :
    (new_init 1 10).transfer 2 3 5 = (Except.error Error.InsufficientBalance, new_init 1 10) ∧
    ((new_init 1 10).transfer 2 3 5).2.balance_of 2 = (new_init 1 10).balance_of 2 ∧
    ((new_init 1 10).transfer 2 3 5).2.balance_of 3 = (new_init 1 10).balance_of 3 :=
  C6_transfer_failure_noop (new_init 1 10) 2 3 5 (by decide)

/-- C7: Approve is an unconditional overwrite that cannot fail: a second approval for the
same (owner, spender) pair replaces the first (the stored allowance is `V2`, not
`V1 + V2`), and every `approve` call returns success regardless of balances or prior
allowances. -/
theorem C7_approve_overwrite (t : Token) (A S : AccountId) (v1 v2 : Nat) :
    (((t.approve A S v1).2.approve A S v2).2.allowance A S = v2) ∧
    (t.approve A S v1).1 = Except.ok () := by
  constructor
  · show (mapGet (mapInsert (mapInsert t.allowances (A, S) v1) (A, S) v2) (A, S)).getD 0 = v2
    rw [mapGet_insert_self]
    rfl
  · rfl

/-- C8: Construction postcondition: after `Construct(S, C)` alone, `total_supply() = S`,
`balance_of(C) = S`, `balance_of(other) = 0` for `other ≠ C`, every allowance is 0, and a
single `Transfer` notification with `from = none`, `to = C`, `value = S` is emitted;
construction is a total function (no error path). -/
theorem C8_construction (creator other o s : AccountId) (supply : Nat)
    (hne : other ≠ creator) :
    (new_init creator supply).total_supply = supply ∧
    (new_init creator supply).balance_of creator = supply ∧
    (new_init creator supply).balance_of other = 0 ∧
    (new_init creator supply).allowance o s = 0 ∧
    (new_init creator supply).events = [Event.Transfer none (some creator) supply] := by
  refine ⟨rfl, ?_, ?_, rfl, rfl⟩
  · show (mapGet (mapInsert [] creator supply) creator).getD 0 = supply
    rw [mapGet_insert_self]
    rfl
  · show (mapGet (mapInsert [] creator supply) other).getD 0 = 0
    rw [mapGet_insert_ne [] creator other supply hne]
    rfl

/-- Witness for C8 at concrete accounts. -/
theorem C8_construction_witness :
    (new_init 1 100).total_supply = 100 ∧
    (new_init 1 100).balance_of 1 = 100 ∧
    (new_init 1 100).balance_of 2 = 0 ∧
    (new_init 1 100).allowance 3 4 = 0 ∧
    (new_init 1 100).events = [Event.Transfer none (some 1) 100] :=
  C8_construction 1 2 3 4 100 (by decide)

theorem transfer_balances_self (t : Token) (A : AccountId) (v : Nat)
    (hInv : Inv t) (h : ¬ t.balance_of_impl A < v) :
    (t.transfer_from_to A A v).2.balance_of A = t.balance_of_impl A := by
  rw [transfer_from_to_ge t A A v h]
  show (mapGet (mapInsert (mapInsert t.balances A (t.balance_of_impl A - v)) A
      (((mapGet (mapInsert t.balances A (t.balance_of_impl A - v)) A).getD 0 + v) % 2 ^ 32))
      A).getD 0 = t.balance_of_impl A
  rw [mapGet_insert_self, mapGet_insert_self]
  simp only [Option.getD_some]
  obtain ⟨hsum, hlt⟩ := hInv
  have hbA : (mapGet t.balances A).getD 0 = t.balance_of_impl A := rfl
  have hble := getD_le_sumVals t.balances A
  have hpow : (2 : Nat) ^ 32 = 4294967296 := by norm_num
  have h1 : t.balance_of_impl A - v + v = t.balance_of_impl A := by omega
  rw [h1, Nat.mod_eq_of_lt (by omega)]

theorem transfer_balances_src (t : Token) (A X : AccountId) (v : Nat)
    (hne : A ≠ X) (h : ¬ t.balance_of_impl A < v) :
    (t.transfer_from_to A X v).2.balance_of A = t.balance_of_impl A - v := by
  rw [transfer_from_to_ge t A X v h]
  show (mapGet (mapInsert (mapInsert t.balances A (t.balance_of_impl A - v)) X
      (((mapGet (mapInsert t.balances A (t.balance_of_impl A - v)) X).getD 0 + v) % 2 ^ 32))
      A).getD 0 = t.balance_of_impl A - v
  rw [mapGet_insert_ne _ X A _ hne, mapGet_insert_self]
  rfl

theorem transfer_balances_dst (t : Token) (A X : AccountId) (v : Nat)
    (hInv : Inv t) (hne : A ≠ X) (h : ¬ t.balance_of_impl A < v) :
    (t.transfer_from_to A X v).2.balance_of X = t.balance_of_impl X + v := by
  rw [transfer_from_to_ge t A X v h]
  show (mapGet (mapInsert (mapInsert t.balances A (t.balance_of_impl A - v)) X
      (((mapGet (mapInsert t.balances A (t.balance_of_impl A - v)) X).getD 0 + v) % 2 ^ 32))
      X).getD 0 = t.balance_of_impl X + v
  rw [mapGet_insert_self]
  simp only [Option.getD_some]
  obtain ⟨hsum, hlt⟩ := hInv
  have hbA : (mapGet t.balances A).getD 0 = t.balance_of_impl A := rfl
  have hble := getD_le_sumVals t.balances A
  have hins := sumVals_insert t.balances A (t.balance_of_impl A - v)
  have hX := getD_le_sumVals (mapInsert t.balances A (t.balance_of_impl A - v)) X
  have hpow : (2 : Nat) ^ 32 = 4294967296 := by norm_num
  rw [mapGet_insert_ne t.balances A X (t.balance_of_impl A - v) (Ne.symm hne)] at hX ⊢
  rw [Nat.mod_eq_of_lt (by omega)]
  rfl

/-- C5: Transfer success: when `balance_of(A) = B ≥ V`, `transfer` called by `A` with
arguments `(X, V)` succeeds, sets `balance_of(A)` to `B - V`, increases `balance_of(X)` by
`V` (net change 0 when `A = X`: self-transfer is permitted and a no-op on balances), and
still emits a `Transfer` notification. Stated for states satisfying the documented
conservation invariant `Inv` (sum of balances equals the u32 `total_supply`). -/
theorem C5_transfer_success (t : Token) (A X : AccountId) (B v : Nat)
    (hInv : Inv t) (hB : t.balance_of A = B) (hvB : v ≤ B) :
    (t.transfer A X v).1 = Except.ok () ∧
    (t.transfer A X v).2.events = t.events ++ [Event.Transfer (some A) (some X) v] ∧
    (A = X → (t.transfer A X v).2.balance_of A = B) ∧
    (A ≠ X → (t.transfer A X v).2.balance_of A = B - v ∧
      (t.transfer A X v).2.balance_of X = t.balance_of X + v) := by
  have hb : t.balance_of_impl A = B := hB
  have h : ¬ t.balance_of_impl A < v := by omega
  refine ⟨?_, ?_, ?_, ?_⟩
  · simp only [Token.transfer]
    rw [transfer_from_to_ge t A X v h]
  · simp only [Token.transfer]
    rw [transfer_from_to_ge t A X v h]
  · intro hAX
    subst hAX
    simp only [Token.transfer]
    rw [transfer_balances_self t A v hInv h, hb]
  · intro hne
    simp only [Token.transfer]
    refine ⟨?_, ?_⟩
    · rw [transfer_balances_src t A X v hne h, hb]
    · rw [transfer_balances_dst t A X v hInv hne h]
      rfl

/-- Witness for C5: in the freshly constructed state, account 1 transfers 30 of its 100
to account 2. -/
theorem C5_transfer_success_witness :
    ((new_init 1 100).transfer 1 2 30).1 = Except.ok () ∧
    ((new_init 1 100).transfer 1 2 30).2.events =
      (new_init 1 100).events ++ [Event.Transfer (some 1) (some 2) 30] ∧
    ((1 : AccountId) = 2 → ((new_init 1 100).transfer 1 2 30).2.balance_of 1 = 100) ∧
    ((1 : AccountId) ≠ 2 → ((new_init 1 100).transfer 1 2 30).2.balance_of 1 = 100 - 30 ∧
      ((new_init 1 100).transfer 1 2 30).2.balance_of 2 = (new_init 1 100).balance_of 2 + 30) :=
  C5_transfer_success (new_init 1 100) 1 2 100 30 (Inv_new_init 1 100 (by norm_num))
    (by decide) (by decide)

/-- C3: TransferFrom success: when `allowance_of(A, S) = V`, `balance_of(A) = B`, and
`V' ≤ V`, `V' ≤ B`, `transfer_from` called by `S` with arguments `(A, X, V')` succeeds,
sets `allowance_of(A, S)` to `V - V'`, and updates balances exactly as
`transfer_from_to(A, X, V')` (i.e. `Transfer`) would; and the concrete scenario
`Construct(4294967000, C)`; `Approve(C, S, 1000000)`; `TransferFrom(S, C, D, 69)` yields
success with `balance_of(D) = 69`, `balance_of(C) = 4294966931`,
`allowance_of(C, S) = 999931` (here `C = 10`, `S = 20`, `D = 30`). -/
theorem C3_transfer_from_success (t : Token) (S A X : AccountId) (V B v : Nat)
    (hA : t.allowance A S = V) (hB : t.balance_of A = B) (h1 : v ≤ V) (h2 : v ≤ B) :
    ((t.transfer_from S A X v).1 = Except.ok () ∧
      (t.transfer_from S A X v).2.allowance A S = V - v ∧
      (t.transfer_from S A X v).2.balances = (t.transfer_from_to A X v).2.balances) ∧
    ((((new_init 10 4294967000).approve 10 20 1000000).2.transfer_from 20 10 30 69).1 =
        Except.ok () ∧
      (((new_init 10 4294967000).approve 10 20 1000000).2.transfer_from
        20 10 30 69).2.balance_of 30 = 69 ∧
      (((new_init 10 4294967000).approve 10 20 1000000).2.transfer_from
        20 10 30 69).2.balance_of 10 = 4294966931 ∧
      (((new_init 10 4294967000).approve 10 20 1000000).2.transfer_from
        20 10 30 69).2.allowance 10 20 = 999931) := by
  have ha' : t.allowance_impl A S = V := hA
  have hb' : t.balance_of_impl A = B := hB
  have ha : ¬ t.allowance_impl A S < v := by omega
  have hb : ¬ t.balance_of_impl A < v := by omega
  refine ⟨⟨?_, ?_, ?_⟩, by decide⟩
  · rw [transfer_from_ok t S A X v ha hb]
  · rw [transfer_from_ok t S A X v ha hb]
    show (mapGet (mapInsert (t.transfer_from_to A X v).2.allowances (A, S)
        (t.allowance_impl A S - v)) (A, S)).getD 0 = V - v
    rw [mapGet_insert_self]
    simp only [Option.getD_some]
    omega
  · rw [transfer_from_ok t S A X v ha hb]

/-- Witness for C3, at the concrete scenario state itself. -/
theorem C3_transfer_from_success_witness :
    ((((new_init 10 4294967000).approve 10 20 1000000).2.transfer_from 20 10 30 69).1 =
        Except.ok () ∧
      (((new_init 10 4294967000).approve 10 20 1000000).2.transfer_from
        20 10 30 69).2.allowance 10 20 = 1000000 - 69 ∧
      (((new_init 10 4294967000).approve 10 20 1000000).2.transfer_from
        20 10 30 69).2.balances =
        (((new_init 10 4294967000).approve 10 20 1000000).2.transfer_from_to
          10 30 69).2.balances) ∧
    ((((new_init 10 4294967000).approve 10 20 1000000).2.transfer_from 20 10 30 69).1 =
        Except.ok () ∧
      (((new_init 10 4294967000).approve 10 20 1000000).2.transfer_from
        20 10 30 69).2.balance_of 30 = 69 ∧
      (((new_init 10 4294967000).approve 10 20 1000000).2.transfer_from
        20 10 30 69).2.balance_of 10 = 4294966931 ∧
      (((new_init 10 4294967000).approve 10 20 1000000).2.transfer_from
        20 10 30 69).2.allowance 10 20 = 999931) :=
  C3_transfer_from_success ((new_init 10 4294967000).approve 10 20 1000000).2
    20 10 30 1000000 4294967000 69 (by decide) (by decide) (by decide) (by decide)

theorem no_overflow_of_Inv (t : Token) (src dst : AccountId) (v : Nat) (hInv : Inv t)
    (h : ¬ t.balance_of_impl src < v) :
    (mapGet (mapInsert t.balances src (t.balance_of_impl src - v)) dst).getD 0 + v
      < 2 ^ 32 := by
  obtain ⟨hsum, hlt⟩ := hInv
  have hbA : (mapGet t.balances src).getD 0 = t.balance_of_impl src := rfl
  have hble := getD_le_sumVals t.balances src
  have hins := sumVals_insert t.balances src (t.balance_of_impl src - v)
  have hX := getD_le_sumVals (mapInsert t.balances src (t.balance_of_impl src - v)) dst
  have hpow : (2 : Nat) ^ 32 = 4294967296 := by norm_num
  omega

/-- C9: Arithmetic safety: in every state reachable from construction with a u32 supply,
each subtraction of the commands sits behind its sufficiency guard (`value ≤ from_balance`
inside the balance branch, `value ≤ allowance` inside the allowance branch), so it cannot
underflow, and the addition `to_balance + value` performed by `transfer_from_to` (`to_balance`
being read from the balances map after the debit of `src`) stays below `2^32`, so it
cannot overflow u32. -/
theorem C9_arithmetic_safety (creator : AccountId) (s : Nat) (hs : s < 2 ^ 32)
    (ops : List Op) (caller src dst : AccountId) (v : Nat) :
    (¬ (run (new_init creator s) ops).balance_of_impl src < v →
      v ≤ (run (new_init creator s) ops).balance_of_impl src ∧
      (mapGet (mapInsert (run (new_init creator s) ops).balances src
          ((run (new_init creator s) ops).balance_of_impl src - v)) dst).getD 0 + v
        < 2 ^ 32) ∧
    (¬ (run (new_init creator s) ops).allowance_impl src caller < v →
      v ≤ (run (new_init creator s) ops).allowance_impl src caller) := by
  have hInv := Inv_run (new_init creator s) ops (Inv_new_init creator s hs)
  refine ⟨fun h => ⟨by omega, no_overflow_of_Inv _ src dst v hInv h⟩, fun h => by omega⟩

/-- Witness for C9 on the freshly constructed state. -/
theorem C9_arithmetic_safety_witness :
    (¬ (run (new_init 1 1000) []).balance_of_impl 1 < 40 →
      40 ≤ (run (new_init 1 1000) []).balance_of_impl 1 ∧
      (mapGet (mapInsert (run (new_init 1 1000) []).balances 1
          ((run (new_init 1 1000) []).balance_of_impl 1 - 40)) 2).getD 0 + 40 < 2 ^ 32) ∧
    (¬ (run (new_init 1 1000) []).allowance_impl 1 3 < 40 →
      40 ≤ (run (new_init 1 1000) []).allowance_impl 1 3) :=
  C9_arithmetic_safety 1 1000 (by norm_num) [] 3 1 2 40

example : (new_init 1 100).balance_of 1 = 100 := by decide
example : ((new_init 1 100).transfer 1 2 30).2.balance_of 2 = 30 := by decide
example : ((new_init 1 100).transfer 1 2 101).1 = Except.error Error.InsufficientBalance := by
  decide

end Erc20
